import Mathlib

/-!
Shallow embedding of the scoring engine of `scoring_logic.py`
(transcript scoring for spoken self-introductions).

Modelling conventions:
* Python floats are modelled as exact rationals (`ℚ`); all arithmetic in the
  scoring path is +, -, *, /, min, max and comparisons, so the idealisation is
  faithful up to floating-point rounding, which never comes near any of the
  band boundaries or constants compared here.
* Python strings are modelled as `String` / `List Char`; `str.lower`,
  `re.findall (\b\w+\b)`, `str.find`, `in`, and `str.count` are implemented
  below for the ASCII fragment (Python's `\w` also matches non-ASCII word
  characters; every string constant in the program is ASCII).
* The three optional external providers (sentence-transformer model, language
  tool, VADER) are modelled as optional pure functions in a `Providers`
  record: `none` is the "import failed" fallback path of the source.
* Python dicts used by the code are modelled as association lists; dict
  construction with later keys overwriting earlier ones is modelled by a
  lookup that takes the last matching key.
-/

/-- Python `\w` on the ASCII fragment: alphanumeric or underscore. -/
def isWordChar (c : Char) : Bool := c.isAlphanum || c == '_'

/-- `text.lower()` as a character list (ASCII; Lean `Char.toLower` agrees with
Python `str.lower` on ASCII). -/
def lowerChars (s : String) : List Char := s.data.map Char.toLower

/-- `s.lower()` as a string. -/
def pyLower (s : String) : String := ⟨lowerChars s⟩

/-- Helper for `segments`: splits the remaining characters into maximal runs
on which `p` is constant; `b` is the flag of the run being accumulated and
`acc` its characters in reverse (non-empty by invariant). Structural
recursion, so it evaluates inside the kernel. -/
def segsAux (p : Char → Bool) : List Char → Bool → List Char → List (Bool × List Char)
  | [], b, acc => [(b, acc.reverse)]
  | c :: cs, b, acc =>
    if p c == b then segsAux p cs b (c :: acc)
    else (b, acc.reverse) :: segsAux p cs (p c) [c]

/-- The maximal runs of a character list, each tagged with the value `p`
takes on it (runs strictly alternate between `true` and `false`). -/
def segments (p : Char → Bool) : List Char → List (Bool × List Char)
  | [] => []
  | c :: cs => segsAux p cs (p c) [c]

/-- Maximal runs of word characters, i.e. `re.findall(r"\b\w+\b", ·)`. -/
def wordRuns (l : List Char) : List (List Char) :=
  ((segments isWordChar l).filter (fun s => s.1)).map Prod.snd

/-- `tokenize_words` (scoring_logic.py line 35): tokens of the lower-cased text. -/
def tokenize_words (text : String) : List (List Char) := wordRuns (lowerChars text)

/-- `word_count` (line 38). -/
def word_count (text : String) : ℕ := (tokenize_words text).length

/-- Python `hay.find(pat)` on character lists: first index or -1. -/
def findSub (pat : List Char) : List Char → Int
  | [] => if pat.isEmpty then 0 else -1
  | c :: cs =>
    if pat.isPrefixOf (c :: cs) then 0
    else
      match findSub pat cs with
      | r => if r < 0 then -1 else r + 1

/-- Python `pat in hay` on character lists. -/
def containsSub (pat : List Char) : List Char → Bool
  | [] => pat.isEmpty
  | c :: cs => pat.isPrefixOf (c :: cs) || containsSub pat cs

/-- Helper for `countOccur`: Python `str.count` scanning (non-overlapping,
leftmost-first) for a non-empty pattern. After a match the rest of the
matched characters are skipped via the counter `k`. -/
def countOccurGo (pat : List Char) : List Char → ℕ → ℕ
  | [], _ => 0
  | c :: cs, 0 =>
    if pat.isPrefixOf (c :: cs) then 1 + countOccurGo pat cs (pat.length - 1)
    else countOccurGo pat cs 0
  | _ :: cs, k + 1 => countOccurGo pat cs k

/-- Python `hay.count(pat)`: non-overlapping occurrence count. -/
def countOccur (pat hay : List Char) : ℕ :=
  match pat with
  | [] => hay.length + 1
  | _ :: _ => countOccurGo pat hay 0

/-- Optional external providers (lines 5-24): the semantic-similarity model
(raw cosine similarity in place of `util.cos_sim`), the grammar tool (error
count in place of `len(tool.check(text))`), and the sentiment analyzer
(compound polarity). `none` models a failed import. -/
structure Providers where
  sem : Option (String → String → ℚ)
  lt : Option (String → ℕ)
  vader : Option (String → ℚ)

/-- All three optional providers absent. -/
def noProviders : Providers := ⟨none, none, none⟩

/-- `clamp` helper for `max lo (min hi x)` patterns in the source. -/
def clampQ (lo hi x : ℚ) : ℚ := max lo (min hi x)

/-- Python `not s.strip()`: true iff every character is whitespace. -/
def isBlank (s : String) : Bool := s.data.all Char.isWhitespace

/-- `semantic_similarity_score` (lines 41-48): 0 when the model is absent or
either string is blank; otherwise the cosine similarity mapped from [-1,1]
to [0,100] and clamped. -/
def semantic_similarity_score (cfg : Providers) (a b : String) : ℚ :=
  match cfg.sem with
  | none => 0
  | some f =>
    if isBlank a || isBlank b then 0
    else clampQ 0 100 ((f a b + 1) / 2 * 100)

/-- `CRITERION_POINTS` (lines 26-33). -/
def CRITERION_POINTS : List (String × ℚ) :=
  [("Content & Structure", 40),
   ("Speech Rate", 10),
   ("Language & Grammar", 20),
   ("Vocabulary Richness", 10),
   ("Clarity", 15),
   ("Engagement", 15)]

/-- Python dict key access `CRITERION_POINTS[k]` (keys are unique; 0 stands
for the KeyError case, which the program never reaches). -/
def criterionPoints (k : String) : ℚ :=
  ((CRITERION_POINTS.find? (fun p => p.1 == k)).map Prod.snd).getD 0

/-- `SALUTATION_PHRASES["excellent"]` (line 52). -/
def excellentPhrases : List String :=
  ["i am excited", "feeling great", "i am delighted", "i\x27m excited"]

/-- `SALUTATION_PHRASES["good"]` (line 53). -/
def goodPhrases : List String :=
  ["good morning", "good afternoon", "good evening", "good day", "hello everyone"]

/-- `SALUTATION_PHRASES["normal"]` (line 54). -/
def normalPhrases : List String := ["hi", "hello"]

/-- `SALUTATION_PHRASES` in dict insertion order (lines 51-55). -/
def SALUTATION_PHRASES : List (String × List String) :=
  [("excellent", excellentPhrases), ("good", goodPhrases), ("normal", normalPhrases)]

/-- `SALUTATION_MAP` (line 56). -/
def SALUTATION_MAP : List (String × ℚ) :=
  [("no salulation", 0), ("normal", 2), ("good", 4), ("excellent", 5)]

/-- Dict key access on an association list with unique keys. -/
def lookupQ (m : List (String × ℚ)) (k : String) : ℚ :=
  ((m.find? (fun p => p.1 == k)).map Prod.snd).getD 0

/-- The dict `{"level": ..., "score": ...}` returned by `detect_salutation`. -/
structure Salutation where
  level : String
  score : ℚ

/-- First level of `SALUTATION_PHRASES` (in dict order) with a phrase that is
a substring of `t`; models the nested loop of lines 60-63. -/
def firstMatchLevel (t : List Char) : List (String × List String) → Option String
  | [] => none
  | (lvl, ps) :: rest =>
    if ps.any (fun p => containsSub p.data t) then some lvl
    else firstMatchLevel t rest

/-- `" ".join(tokenize_words(text)[:10])` (line 64). -/
def joinFirstTokens (text : String) : List Char :=
  List.intercalate [' '] ((tokenize_words text).take 10)

/-- `detect_salutation` (lines 58-68). -/
def detect_salutation (text : String) : Salutation :=
  match firstMatchLevel (lowerChars text) SALUTATION_PHRASES with
  | some lvl => ⟨lvl, lookupQ SALUTATION_MAP lvl⟩
  | none =>
    if normalPhrases.any (fun p => containsSub p.data (joinFirstTokens text)) then
      ⟨"normal", lookupQ SALUTATION_MAP ("normal")⟩
    else
      ⟨"no salulation", lookupQ SALUTATION_MAP ("no salulation")⟩

/-- `MUST_HAVE_KEYS` (line 70); a Python set, modelled as a duplicate-free
list (only the count of matching keys is used, which is order-independent). -/
def MUST_HAVE_KEYS : List String :=
  ["name", "age", "school", "class", "family", "hobbies", "interest", "hobby"]

/-- `GOOD_TO_HAVE_KEYS` (line 71). -/
def GOOD_TO_HAVE_KEYS : List String :=
  ["fun", "fun fact", "ambition", "goal", "dream", "strength", "achievement",
   "origin", "from", "about family"]

/-- One keyword test of `count_must_good_keywords`: multi-word keys by
substring containment in the lower-cased text, single-word keys by membership
in the token set. -/
def keywordHit (t : List Char) (tokens : List (List Char)) (k : String) : Bool :=
  if k.data.contains ' ' then containsSub k.data t else tokens.contains k.data

/-- The dict `{"must": ..., "good": ...}`. -/
structure KwCount where
  must : ℕ
  good : ℕ

/-- `count_must_good_keywords` (lines 73-92). The source tokenizes the
already lower-cased text; `tokenize_words` lower-cases internally and
lower-casing is idempotent on ASCII, so tokenizing the original is identical. -/
def count_must_good_keywords (text : String) : KwCount :=
  { must := MUST_HAVE_KEYS.countP (keywordHit (lowerChars text) (tokenize_words text))
    good := GOOD_TO_HAVE_KEYS.countP (keywordHit (lowerChars text) (tokenize_words text)) }

/-- `name_patterns` (line 102). -/
def namePatterns : List String := ["my name is", "myself", "i am", "i\x27m", "this is"]

/-- The salutation-index loop of `detect_flow` (lines 96-101): first phrase
found in the text gives its index, else -1. -/
def firstFoundIdx (t : List Char) : List String → Int
  | [] => -1
  | p :: ps => if 0 ≤ findSub p.data t then findSub p.data t else firstFoundIdx t ps

/-- `min(... or [999999])` for the name-pattern indices (line 103). -/
def nameIdx (t : List Char) : Int :=
  match (namePatterns.map (fun p => findSub p.data t)).filter (fun i => decide (0 ≤ i)) with
  | [] => 999999
  | x :: xs => xs.foldl min x

/-- `detect_flow` (lines 94-108). -/
def detect_flow (text : String) : Bool :=
  let t := lowerChars text
  let sal_idx := firstFoundIdx t (normalPhrases ++ goodPhrases ++ excellentPhrases)
  let name_idx := nameIdx t
  if 0 ≤ sal_idx ∧ 0 ≤ name_idx ∧ name_idx - sal_idx < 200 then true
  else if namePatterns.any (fun p => containsSub p.data t) then true
  else false

/-- Synthesized duration `max(1.0, words / 120.0 * 60.0)` (line 113). -/
def synthDuration (words : ℚ) : ℚ := max 1 (words / 120 * 60)

/-- The duration actually used by `speech_rate_score` (lines 112-113):
`not duration_sec or duration_sec <= 0` is true for `None`, `0.0` (falsy) and
negative values — exactly `none` or a value `≤ 0`. -/
def effectiveDuration (words : ℚ) : Option ℚ → ℚ
  | none => synthDuration words
  | some d => if d ≤ 0 then synthDuration words else d

/-- `wpm = words / (duration_sec / 60.0)` (line 114). -/
def wpmOf (words duration : ℚ) : ℚ := words / (duration / 60)

/-- The top-down band chain of `speech_rate_score` (lines 115-123). -/
def rateBand (wpm : ℚ) : ℚ :=
  if wpm > 161 then 2
  else if 141 ≤ wpm ∧ wpm ≤ 160 then 6
  else if 111 ≤ wpm ∧ wpm ≤ 140 then 10
  else if 81 ≤ wpm ∧ wpm ≤ 110 then 6
  else 2

/-- `speech_rate_score` (lines 111-123). -/
def speech_rate_score (words : ℕ) (duration_sec : Option ℚ) : ℚ :=
  rateBand (wpmOf (words : ℚ) (effectiveDuration (words : ℚ) duration_sec))

/-- Matches of `re.findall(r"\b(\w+)\s+\1\b", ·)` over the tagged maximal
runs of `segments isWordChar`: a match is two consecutive word runs,
separated by a gap that is non-empty and all-whitespace, whose characters
are equal; the scan is leftmost and non-overlapping (after a match the
second word is consumed). The regex can only match full word runs (a
shorter capture is followed by a word character, failing `\s`/`\b`), so
this scan over maximal runs is exact. The first argument carries the word
run that a match could start at (`none` while between candidates). -/
def countRepGo : Option (List Char) → List (Bool × List Char) → ℕ
  | _, [] => 0
  | none, (true, w) :: rest => countRepGo (some w) rest
  | none, (false, _) :: rest => countRepGo none rest
  | some w1, (false, g) :: (true, w2) :: rest =>
    if w1 == w2 && !g.isEmpty && g.all Char.isWhitespace then 1 + countRepGo none rest
    else countRepGo (some w2) rest
  | some _, (false, _) :: rest => countRepGo none rest
  | some _, (true, w) :: rest => countRepGo (some w) rest

/-- `len(re.findall(r"\b(\w+)\s+\1\b", text.lower()))` (line 137). -/
def repeatedWordMatches (text : String) : ℕ :=
  countRepGo none (segments isWordChar (lowerChars text))

/-- `text.count(",")` (line 139); counted on the original text. -/
def commaCount (text : String) : ℕ := text.data.countP (fun c => c == ',')

/-- `errors_per_100` of `grammar_score` (lines 127-140), with
`wc = max(1, word_count(text))`. With the grammar tool present the error
count comes from the tool; otherwise the heuristic counts repeated-word
bigrams plus `max(0, commas - 5)` (truncated subtraction on ℕ). -/
def gramErrorsPer100 (cfg : Providers) (text : String) : ℚ :=
  match cfg.lt with
  | some check => (check text : ℚ) / (((max 1 (word_count text) : ℕ) : ℚ) / 100)
  | none =>
    if 0 < max 1 (word_count text) then
      ((repeatedWordMatches text + (commaCount text - 5) : ℕ) : ℚ)
        / (((max 1 (word_count text) : ℕ) : ℚ) / 100)
    else 0

/-- `gram_score = 1.0 - min(errors_per_100 / 10.0, 1.0)` (line 141). -/
def gramQuality (cfg : Providers) (text : String) : ℚ :=
  1 - min (gramErrorsPer100 cfg text / 10) 1

/-- `grammar_score` (lines 125-150): the band chain on the normalized
quality. -/
def grammar_score (cfg : Providers) (text : String) : ℚ :=
  if gramQuality cfg text > 9/10 then 10
  else if 7/10 ≤ gramQuality cfg text ∧ gramQuality cfg text ≤ 89/100 then 8
  else if 1/2 ≤ gramQuality cfg text ∧ gramQuality cfg text ≤ 69/100 then 6
  else if 3/10 ≤ gramQuality cfg text ∧ gramQuality cfg text ≤ 49/100 then 4
  else 2

/-- The type-token ratio `distinct / total` (line 158); `set(words)` size is
the number of distinct tokens. -/
def ttrOf (text : String) : ℚ :=
  ((tokenize_words text).dedup.length : ℚ) / ((tokenize_words text).length : ℚ)

/-- The band chain of `ttr_score` (lines 159-167). -/
def ttrBand (ttr : ℚ) : ℚ :=
  if 9/10 ≤ ttr ∧ ttr ≤ 1 then 10
  else if 7/10 ≤ ttr ∧ ttr < 9/10 then 8
  else if 1/2 ≤ ttr ∧ ttr < 7/10 then 6
  else if 3/10 ≤ ttr ∧ ttr < 1/2 then 4
  else 2

/-- `ttr_score` (lines 152-167): 0 on zero tokens, else the banded
type-token ratio. -/
def ttr_score (text : String) : ℚ :=
  if (tokenize_words text).length = 0 then 0 else ttrBand (ttrOf text)

/-- `FILLER_WORDS` (line 169); a Python set, modelled as a duplicate-free
list (only the sum of the counts is used, which is order-independent). -/
def FILLER_WORDS : List String :=
  ["um", "uh", "like", "you know", "so", "actually", "basically", "right",
   "i mean", "well", "kinda", "sort of", "okay", "hmm", "ah", "erm", "uhm"]

/-- Summed substring occurrence counts of the filler set in the lower-cased
text (lines 176-178). -/
def fillerCount (text : String) : ℕ :=
  (FILLER_WORDS.map (fun fw => countOccur fw.data (lowerChars text))).sum

/-- The band chain of `filler_rate_score` (lines 180-188). -/
def fillerBand (rate : ℚ) : ℚ :=
  if rate ≤ 3 then 15
  else if 4 ≤ rate ∧ rate ≤ 6 then 12
  else if 7 ≤ rate ∧ rate ≤ 9 then 9
  else if 10 ≤ rate ∧ rate ≤ 12 then 6
  else 3

/-- `rate = (count / total) * 100.0` (line 179). -/
def fillerRateOf (text : String) : ℚ :=
  (fillerCount text : ℚ) / ((tokenize_words text).length : ℚ) * 100

/-- `filler_rate_score` (lines 170-188): 0 on zero tokens, else the banded
filler rate in percent. -/
def filler_rate_score (text : String) : ℚ :=
  if (tokenize_words text).length = 0 then 0 else fillerBand (fillerRateOf text)

/-- `pos_words` (line 195). -/
def POS_WORDS : List String :=
  ["good", "great", "excited", "happy", "enjoy", "love", "like", "confident",
   "interesting", "fun"]

/-- The positivity value `p` of `engagement_score` (lines 191-201): VADER
compound polarity mapped to [0,1] when available, else the capped
positive-word ratio (0 on an empty token list). -/
def engagementP (cfg : Providers) (text : String) : ℚ :=
  match cfg.vader with
  | some pol => (pol text + 1) / 2
  | none =>
    if (tokenize_words text).isEmpty then 0
    else min 1 (((tokenize_words text).countP
        (fun w => POS_WORDS.any (fun pw => pw.data == w)) : ℚ)
      / ((tokenize_words text).length : ℚ) * 2)

/-- `engagement_score` (lines 190-210): the band chain on `p`. -/
def engagement_score (cfg : Providers) (text : String) : ℚ :=
  if engagementP cfg text ≥ 9/10 then 15
  else if 7/10 ≤ engagementP cfg text ∧ engagementP cfg text ≤ 89/100 then 12
  else if 1/2 ≤ engagementP cfg text ∧ engagementP cfg text ≤ 69/100 then 9
  else if 3/10 ≤ engagementP cfg text ∧ engagementP cfg text ≤ 49/100 then 6
  else 3

/-- The per-criterion result dict of the `score_*` functions (the `details`
entry, a heterogeneous dict used only for display, is not modelled; no claim
refers to it). -/
structure CriterionResult where
  criterion : String
  raw_points : ℚ
  rule_score : ℚ
  semantic_score : ℚ
  combined_score : ℚ
  max_points : ℚ

/-- Raw points of `score_content_structure` (lines 214-221): salutation plus
capped must/good keyword points plus flow points, clamped to [0,40]. -/
def csRaw (text : String) : ℚ :=
  clampQ 0 40 ((detect_salutation text).score
    + ((min 5 (count_must_good_keywords text).must : ℕ) : ℚ) * 4
    + ((min 5 (count_must_good_keywords text).good : ℕ) : ℚ) * 2
    + (if detect_flow text then (5 : ℚ) else 0))

/-- `score_content_structure` (lines 213-225). -/
def score_content_structure (cfg : Providers) (text : String) : CriterionResult :=
  { criterion := "Content & Structure"
    raw_points := csRaw text
    rule_score := csRaw text / 40 * 100
    semantic_score := semantic_similarity_score cfg text
      ("Salutation name age class school family hobbies flow closing")
    combined_score := (1 : ℚ)/2 * (csRaw text / 40 * 100) + (1 : ℚ)/2
      * semantic_similarity_score cfg text
        ("Salutation name age class school family hobbies flow closing")
    max_points := criterionPoints ("Content & Structure") }

/-- `score_speech_rate` (lines 227-233). -/
def score_speech_rate (cfg : Providers) (text : String) (duration_sec : Option ℚ) :
    CriterionResult :=
  { criterion := "Speech Rate"
    raw_points := speech_rate_score (word_count text) duration_sec
    rule_score := speech_rate_score (word_count text) duration_sec
      / criterionPoints ("Speech Rate") * 100
    semantic_score := semantic_similarity_score cfg text ("Speech rate pacing")
    combined_score := (1 : ℚ)/2 * (speech_rate_score (word_count text) duration_sec
        / criterionPoints ("Speech Rate") * 100)
      + (1 : ℚ)/2 * semantic_similarity_score cfg text ("Speech rate pacing")
    max_points := criterionPoints ("Speech Rate") }

/-- `score_language_grammar` (lines 235-240); note the source hard-codes
`max_points = 10.0` here rather than the 20.0 of `CRITERION_POINTS`. -/
def score_language_grammar (cfg : Providers) (text : String) : CriterionResult :=
  { criterion := "Language & Grammar"
    raw_points := grammar_score cfg text
    rule_score := grammar_score cfg text / 10 * 100
    semantic_score := semantic_similarity_score cfg text ("Grammar correctness")
    combined_score := (1 : ℚ)/2 * (grammar_score cfg text / 10 * 100)
      + (1 : ℚ)/2 * semantic_similarity_score cfg text ("Grammar correctness")
    max_points := 10 }

/-- `score_vocabulary` (lines 242-247). -/
def score_vocabulary (cfg : Providers) (text : String) : CriterionResult :=
  { criterion := "Vocabulary Richness"
    raw_points := ttr_score text
    rule_score := ttr_score text / 10 * 100
    semantic_score := semantic_similarity_score cfg text
      ("Vocabulary richness lexical diversity TTR")
    combined_score := (1 : ℚ)/2 * (ttr_score text / 10 * 100) + (1 : ℚ)/2
      * semantic_similarity_score cfg text ("Vocabulary richness lexical diversity TTR")
    max_points := criterionPoints ("Vocabulary Richness") }

/-- `score_clarity` (lines 249-254). -/
def score_clarity (cfg : Providers) (text : String) : CriterionResult :=
  { criterion := "Clarity"
    raw_points := filler_rate_score text
    rule_score := filler_rate_score text / criterionPoints ("Clarity") * 100
    semantic_score := semantic_similarity_score cfg text ("Clarity minimal fillers")
    combined_score := (1 : ℚ)/2 * (filler_rate_score text / criterionPoints ("Clarity") * 100)
      + (1 : ℚ)/2 * semantic_similarity_score cfg text ("Clarity minimal fillers")
    max_points := criterionPoints ("Clarity") }

/-- `score_engagement` (lines 256-261). -/
def score_engagement (cfg : Providers) (text : String) : CriterionResult :=
  { criterion := "Engagement"
    raw_points := engagement_score cfg text
    rule_score := engagement_score cfg text / criterionPoints ("Engagement") * 100
    semantic_score := semantic_similarity_score cfg text
      ("Engagement enthusiasm sentiment positivity")
    combined_score := (1 : ℚ)/2 * (engagement_score cfg text
        / criterionPoints ("Engagement") * 100)
      + (1 : ℚ)/2 * semantic_similarity_score cfg text
        ("Engagement enthusiasm sentiment positivity")
    max_points := criterionPoints ("Engagement") }

/-- A rubric row as consumed by `score_transcript` (the `keywords` entry of
the loader's dicts is never read by the core and is not modelled). -/
structure RubricEntry where
  criterion : String
  weight : ℚ

/-- An element of the report's `per_criterion` list (built by `add_item`,
lines 280-292; again without the display-only `details`). -/
structure PerEntry where
  criterion : String
  weight : ℚ
  rule_score : ℚ
  semantic_score : ℚ
  combined_score : ℚ
  weighted_contribution : ℚ
  raw_points : ℚ

/-- The report dict of `score_transcript` (line 315). -/
structure ScoreReport where
  overall_score : ℚ
  per_criterion : List PerEntry
  words : ℕ

/-- Dict lookup `weight_map.get(key, 0.0)`: the dict is built from a list of
(key, value) pairs with later pairs overwriting earlier ones, so the lookup
takes the last matching pair. -/
def weightLookup (m : List (String × ℚ)) (k : String) : ℚ :=
  ((m.reverse.find? (fun p => p.1 == k)).map Prod.snd).getD 0

/-- The default weight map (lines 275-276): each criterion's points divided
by the total, keyed by the lower-cased name. -/
def defaultWeightMap : List (String × ℚ) :=
  CRITERION_POINTS.map (fun p => (pyLower p.1, p.2 / (CRITERION_POINTS.map Prod.snd).sum))

/-- The weight map of `score_transcript` (lines 272-276): `if rubric:` is
falsy for `None` and for an empty list, both falling back to the default. -/
def resolveWeightMap : Option (List RubricEntry) → List (String × ℚ)
  | none => defaultWeightMap
  | some rs =>
    if rs.isEmpty then defaultWeightMap
    else rs.map (fun r => (pyLower r.criterion, r.weight))

/-- `add_item` (lines 280-292): the weight is looked up under `key`, and the
contribution is `combined/100 * (weight*100)`. -/
def addItemEntry (wm : List (String × ℚ)) (crit : String)
    (rule sem comb raw : ℚ) (key : String) : PerEntry :=
  { criterion := crit
    weight := weightLookup wm key
    rule_score := rule
    semantic_score := sem
    combined_score := comb
    weighted_contribution := comb / 100 * (weightLookup wm key * 100)
    raw_points := raw }

/-- `score_transcript` (lines 263-315). The merged "Language & Grammar"
display entry averages the grammar and vocabulary scores and sums their raw
points (lines 297-306); vocabulary is also appended standalone (line 308). -/
def score_transcript (cfg : Providers) (transcript : String)
    (rubric : Option (List RubricEntry)) (duration_sec : Option ℚ) : ScoreReport :=
  let cs := score_content_structure cfg transcript
  let sr := score_speech_rate cfg transcript duration_sec
  let lg := score_language_grammar cfg transcript
  let vr := score_vocabulary cfg transcript
  let cl := score_clarity cfg transcript
  let en := score_engagement cfg transcript
  let wm := resolveWeightMap rubric
  let per_list : List PerEntry :=
    [addItemEntry wm cs.criterion cs.rule_score cs.semantic_score cs.combined_score
       cs.raw_points ("content & structure"),
     addItemEntry wm sr.criterion sr.rule_score sr.semantic_score sr.combined_score
       sr.raw_points ("speech rate"),
     addItemEntry wm ("Language & Grammar")
       ((1 : ℚ)/2 * lg.rule_score + (1 : ℚ)/2 * vr.rule_score)
       ((1 : ℚ)/2 * lg.semantic_score + (1 : ℚ)/2 * vr.semantic_score)
       ((1 : ℚ)/2 * lg.combined_score + (1 : ℚ)/2 * vr.combined_score)
       (lg.raw_points + vr.raw_points) ("language & grammar"),
     addItemEntry wm vr.criterion vr.rule_score vr.semantic_score vr.combined_score
       vr.raw_points ("vocabulary richness"),
     addItemEntry wm cl.criterion cl.rule_score cl.semantic_score cl.combined_score
       cl.raw_points ("clarity"),
     addItemEntry wm en.criterion en.rule_score en.semantic_score en.combined_score
       en.raw_points ("engagement")]
  { overall_score := clampQ 0 100 ((per_list.map PerEntry.weighted_contribution).sum)
    per_criterion := per_list
    words := word_count transcript }

/-- Specification predicate: a criterion result uses the fixed equal-weight
fusion `combined = 0.5*rule + 0.5*semantic` and its combined score lies in
[0,100]. -/
def fusionOk (r : CriterionResult) : Prop :=
  r.combined_score = (1 : ℚ)/2 * r.rule_score + (1 : ℚ)/2 * r.semantic_score ∧
  0 ≤ r.combined_score ∧ r.combined_score ≤ 100

/-- Specification predicate: with the semantic provider absent the semantic
score is 0 and the combined score degenerates to half the rule score. -/
def semAbsent (r : CriterionResult) : Prop :=
  r.semantic_score = 0 ∧ r.combined_score = r.rule_score / 2

/-! ## Helper lemmas -/

theorem clampQ_ge (lo hi x : ℚ) : lo ≤ clampQ lo hi x := le_max_left lo (min hi x)

theorem clampQ_le (lo hi x : ℚ) (h : lo ≤ hi) : clampQ lo hi x ≤ hi :=
  max_le h (min_le_left hi x)

theorem semantic_bounds (cfg : Providers) (a b : String) :
    0 ≤ semantic_similarity_score cfg a b ∧ semantic_similarity_score cfg a b ≤ 100 := by
  unfold semantic_similarity_score
  cases cfg.sem with
  | none => norm_num
  | some f =>
    simp only
    split_ifs
    · norm_num
    · exact ⟨clampQ_ge 0 100 _, clampQ_le 0 100 _ (by norm_num)⟩

theorem rateBand_range (x : ℚ) : 2 ≤ rateBand x ∧ rateBand x ≤ 10 := by
  unfold rateBand
  split_ifs <;> norm_num

theorem grammar_score_range (cfg : Providers) (t : String) :
    2 ≤ grammar_score cfg t ∧ grammar_score cfg t ≤ 10 := by
  unfold grammar_score
  split_ifs <;> norm_num

theorem ttrBand_range (x : ℚ) : 2 ≤ ttrBand x ∧ ttrBand x ≤ 10 := by
  unfold ttrBand
  split_ifs <;> norm_num

theorem ttr_score_range (t : String) : 0 ≤ ttr_score t ∧ ttr_score t ≤ 10 := by
  unfold ttr_score
  split_ifs
  · norm_num
  · exact ⟨le_trans (by norm_num) (ttrBand_range _).1, (ttrBand_range _).2⟩

theorem fillerBand_range (x : ℚ) : 3 ≤ fillerBand x ∧ fillerBand x ≤ 15 := by
  unfold fillerBand
  split_ifs <;> norm_num

theorem filler_score_range (t : String) :
    0 ≤ filler_rate_score t ∧ filler_rate_score t ≤ 15 := by
  unfold filler_rate_score
  split_ifs
  · norm_num
  · exact ⟨le_trans (by norm_num) (fillerBand_range _).1, (fillerBand_range _).2⟩

theorem engagement_score_range (cfg : Providers) (t : String) :
    3 ≤ engagement_score cfg t ∧ engagement_score cfg t ≤ 15 := by
  unfold engagement_score
  split_ifs <;> norm_num

theorem csRaw_range (t : String) : 0 ≤ csRaw t ∧ csRaw t ≤ 40 :=
  ⟨clampQ_ge 0 40 _, clampQ_le 0 40 _ (by norm_num)⟩

theorem rule_bounds_of (pts maxp : ℚ) (h0 : 0 ≤ pts) (h1 : pts ≤ maxp)
    (hm : 0 < maxp) : 0 ≤ pts / maxp * 100 ∧ pts / maxp * 100 ≤ 100 := by
  constructor
  · exact mul_nonneg (div_nonneg h0 hm.le) (by norm_num)
  · have hd : pts / maxp ≤ 1 := (div_le_one hm).mpr h1
    linarith

theorem fusionOk_of (r : CriterionResult)
    (hc : r.combined_score = (1 : ℚ)/2 * r.rule_score + (1 : ℚ)/2 * r.semantic_score)
    (h1 : 0 ≤ r.rule_score) (h2 : r.rule_score ≤ 100)
    (h3 : 0 ≤ r.semantic_score) (h4 : r.semantic_score ≤ 100) : fusionOk r :=
  ⟨hc, by rw [hc]; linarith, by rw [hc]; linarith⟩

theorem semAbsent_of (r : CriterionResult)
    (hc : r.combined_score = (1 : ℚ)/2 * r.rule_score + (1 : ℚ)/2 * r.semantic_score)
    (hs : r.semantic_score = 0) : semAbsent r :=
  ⟨hs, by rw [hc, hs]; ring⟩

theorem fusion_cs (cfg : Providers) (t : String) :
    fusionOk (score_content_structure cfg t) := by
  have hr := csRaw_range t
  have hb := rule_bounds_of (csRaw t) 40 hr.1 hr.2 (by norm_num)
  have hs := semantic_bounds cfg t
    ("Salutation name age class school family hobbies flow closing")
  exact fusionOk_of _ rfl hb.1 hb.2 hs.1 hs.2

theorem fusion_sr (cfg : Providers) (t : String) (dur : Option ℚ) :
    fusionOk (score_speech_rate cfg t dur) := by
  have h1 : (2 : ℚ) ≤ speech_rate_score (word_count t) dur := (rateBand_range _).1
  have h2 : speech_rate_score (word_count t) dur ≤ 10 := (rateBand_range _).2
  have hb := rule_bounds_of (speech_rate_score (word_count t) dur) 10
    (le_trans (by norm_num) h1) h2 (by norm_num)
  have hs := semantic_bounds cfg t ("Speech rate pacing")
  exact fusionOk_of _ rfl hb.1 hb.2 hs.1 hs.2

theorem fusion_lg (cfg : Providers) (t : String) :
    fusionOk (score_language_grammar cfg t) := by
  have hr := grammar_score_range cfg t
  have hb := rule_bounds_of (grammar_score cfg t) 10
    (le_trans (by norm_num) hr.1) hr.2 (by norm_num)
  have hs := semantic_bounds cfg t ("Grammar correctness")
  exact fusionOk_of _ rfl hb.1 hb.2 hs.1 hs.2

theorem fusion_vr (cfg : Providers) (t : String) :
    fusionOk (score_vocabulary cfg t) := by
  have hr := ttr_score_range t
  have hb := rule_bounds_of (ttr_score t) 10 hr.1 hr.2 (by norm_num)
  have hs := semantic_bounds cfg t ("Vocabulary richness lexical diversity TTR")
  exact fusionOk_of _ rfl hb.1 hb.2 hs.1 hs.2

theorem fusion_cl (cfg : Providers) (t : String) :
    fusionOk (score_clarity cfg t) := by
  have hr := filler_score_range t
  have hb := rule_bounds_of (filler_rate_score t) 15 hr.1 hr.2 (by norm_num)
  have hs := semantic_bounds cfg t ("Clarity minimal fillers")
  exact fusionOk_of _ rfl hb.1 hb.2 hs.1 hs.2

theorem fusion_en (cfg : Providers) (t : String) :
    fusionOk (score_engagement cfg t) := by
  have hr := engagement_score_range cfg t
  have hb := rule_bounds_of (engagement_score cfg t) 15
    (le_trans (by norm_num) hr.1) hr.2 (by norm_num)
  have hs := semantic_bounds cfg t ("Engagement enthusiasm sentiment positivity")
  exact fusionOk_of _ rfl hb.1 hb.2 hs.1 hs.2

theorem rateBand_of_gt (x : ℚ) (h : 161 < x) : rateBand x = 2 := by
  unfold rateBand
  rw [if_pos h]

theorem rateBand_of_141_160 (x : ℚ) (h1 : 141 ≤ x) (h2 : x ≤ 160) : rateBand x = 6 := by
  unfold rateBand
  split_ifs with a b c d
  · linarith
  · rfl
  · exact absurd ⟨h1, h2⟩ b
  · exact absurd ⟨h1, h2⟩ b
  · exact absurd ⟨h1, h2⟩ b

theorem rateBand_of_111_140 (x : ℚ) (h1 : 111 ≤ x) (h2 : x ≤ 140) : rateBand x = 10 := by
  unfold rateBand
  split_ifs with a b c d
  · linarith
  · obtain ⟨b1, _⟩ := b
    linarith
  · rfl
  · exact absurd ⟨h1, h2⟩ c
  · exact absurd ⟨h1, h2⟩ c

theorem rateBand_of_81_110 (x : ℚ) (h1 : 81 ≤ x) (h2 : x ≤ 110) : rateBand x = 6 := by
  unfold rateBand
  split_ifs with a b c d
  · linarith
  · obtain ⟨b1, _⟩ := b
    linarith
  · obtain ⟨c1, _⟩ := c
    linarith
  · rfl
  · exact absurd ⟨h1, h2⟩ d

theorem rateBand_of_le_80 (x : ℚ) (h : x ≤ 80) : rateBand x = 2 := by
  unfold rateBand
  split_ifs with a b c d
  · rfl
  · obtain ⟨b1, _⟩ := b
    linarith
  · obtain ⟨c1, _⟩ := c
    linarith
  · obtain ⟨d1, _⟩ := d
    linarith
  · rfl

theorem fillerBand_of_le_3 (x : ℚ) (h : x ≤ 3) : fillerBand x = 15 := by
  unfold fillerBand
  rw [if_pos h]

theorem fillerBand_of_4_6 (x : ℚ) (h1 : 4 ≤ x) (h2 : x ≤ 6) : fillerBand x = 12 := by
  unfold fillerBand
  split_ifs with a b c d
  · linarith
  · rfl
  · exact absurd ⟨h1, h2⟩ b
  · exact absurd ⟨h1, h2⟩ b
  · exact absurd ⟨h1, h2⟩ b

theorem fillerBand_of_7_9 (x : ℚ) (h1 : 7 ≤ x) (h2 : x ≤ 9) : fillerBand x = 9 := by
  unfold fillerBand
  split_ifs with a b c d
  · linarith
  · obtain ⟨b1, _⟩ := b
    linarith
  · rfl
  · exact absurd ⟨h1, h2⟩ c
  · exact absurd ⟨h1, h2⟩ c

theorem fillerBand_of_10_12 (x : ℚ) (h1 : 10 ≤ x) (h2 : x ≤ 12) : fillerBand x = 6 := by
  unfold fillerBand
  split_ifs with a b c d
  · linarith
  · obtain ⟨b1, _⟩ := b
    linarith
  · obtain ⟨c1, _⟩ := c
    linarith
  · rfl
  · exact absurd ⟨h1, h2⟩ d

theorem fillerBand_of_gt_12 (x : ℚ) (h : 12 < x) : fillerBand x = 3 := by
  unfold fillerBand
  split_ifs with a b c d
  · linarith
  · obtain ⟨_, b2⟩ := b
    linarith
  · obtain ⟨_, c2⟩ := c
    linarith
  · obtain ⟨_, d2⟩ := d
    linarith
  · rfl

/-! ## Claim theorems -/

/-- Claim C1: for every provider configuration, transcript, optional rubric
table and optional duration, the report's `overall_score` equals
`clamp(Σ weighted_contribution, 0, 100)` over its own `per_criterion`
entries, and in particular `0 ≤ overall_score ≤ 100`. -/
theorem spec_c1 (cfg : Providers) (t : String) (rubric : Option (List RubricEntry))
    (dur : Option ℚ) :
    (score_transcript cfg t rubric dur).overall_score
      = clampQ 0 100
        (((score_transcript cfg t rubric dur).per_criterion.map
          PerEntry.weighted_contribution).sum) ∧
    0 ≤ (score_transcript cfg t rubric dur).overall_score ∧
    (score_transcript cfg t rubric dur).overall_score ≤ 100 := by
  refine ⟨rfl, ?_, ?_⟩
  · exact clampQ_ge 0 100 _
  · exact clampQ_le 0 100 _ (by norm_num)

/-- Claim C2: every criterion scorer fuses its rule and semantic scores with
the fixed equal weights (`combined = 0.5*rule + 0.5*semantic`) and its
combined score lies in [0,100]; with the semantic provider absent the
semantic score is 0, so `combined = rule/2`. -/
theorem spec_c2 (cfg : Providers) (lt0 : Option (String → ℕ))
    (vd : Option (String → ℚ)) (t : String) (dur : Option ℚ) :
    fusionOk (score_content_structure cfg t) ∧
    fusionOk (score_speech_rate cfg t dur) ∧
    fusionOk (score_language_grammar cfg t) ∧
    fusionOk (score_vocabulary cfg t) ∧
    fusionOk (score_clarity cfg t) ∧
    fusionOk (score_engagement cfg t) ∧
    semAbsent (score_content_structure ⟨none, lt0, vd⟩ t) ∧
    semAbsent (score_speech_rate ⟨none, lt0, vd⟩ t dur) ∧
    semAbsent (score_language_grammar ⟨none, lt0, vd⟩ t) ∧
    semAbsent (score_vocabulary ⟨none, lt0, vd⟩ t) ∧
    semAbsent (score_clarity ⟨none, lt0, vd⟩ t) ∧
    semAbsent (score_engagement ⟨none, lt0, vd⟩ t) :=
  ⟨fusion_cs cfg t, fusion_sr cfg t dur, fusion_lg cfg t, fusion_vr cfg t,
   fusion_cl cfg t, fusion_en cfg t,
   semAbsent_of _ rfl rfl, semAbsent_of _ rfl rfl, semAbsent_of _ rfl rfl,
   semAbsent_of _ rfl rfl, semAbsent_of _ rfl rfl, semAbsent_of _ rfl rfl⟩

/-- Claim C2 instantiated at concrete input: all providers absent,
transcript "hello", no duration. -/
theorem spec_c2_witness :
    fusionOk (score_content_structure noProviders ("hello")) ∧
    fusionOk (score_speech_rate noProviders ("hello") none) ∧
    fusionOk (score_language_grammar noProviders ("hello")) ∧
    fusionOk (score_vocabulary noProviders ("hello")) ∧
    fusionOk (score_clarity noProviders ("hello")) ∧
    fusionOk (score_engagement noProviders ("hello")) ∧
    semAbsent (score_content_structure ⟨none, none, none⟩ ("hello")) ∧
    semAbsent (score_speech_rate ⟨none, none, none⟩ ("hello") none) ∧
    semAbsent (score_language_grammar ⟨none, none, none⟩ ("hello")) ∧
    semAbsent (score_vocabulary ⟨none, none, none⟩ ("hello")) ∧
    semAbsent (score_clarity ⟨none, none, none⟩ ("hello")) ∧
    semAbsent (score_engagement ⟨none, none, none⟩ ("hello")) :=
  spec_c2 noProviders none none ("hello") none

/-- Claim C3, counterexample: with no rubric supplied, the resolved weight of
"Content & Structure" is 40/110 = 4/11 ≈ 0.3636, which is not the 0.36 of
the claimed fixed table. -/
theorem spec_c3_counterexample :
    ¬ weightLookup (resolveWeightMap none) ("content & structure") = 36/100 := by
  have hv : weightLookup (resolveWeightMap none) ("content & structure")
      = 40 / (CRITERION_POINTS.map Prod.snd).sum := rfl
  have hsum : (CRITERION_POINTS.map Prod.snd).sum = 110 := by
    norm_num [CRITERION_POINTS]
  rw [hv, hsum]
  norm_num

/-- Claim C3 as amended: with no rubric supplied, the resolved weight of each
built-in criterion equals its `max_points` divided by the sum 110 of all
built-in `max_points` — i.e. exactly {4/11, 1/11, 2/11, 1/11, 3/22, 3/22},
which round to the table {0.36, 0.09, 0.18, 0.09, 0.14, 0.14} at two
decimals but are not exactly those values. -/
theorem spec_c3_amended :
    (CRITERION_POINTS.map Prod.snd).sum = 110 ∧
    weightLookup (resolveWeightMap none) ("content & structure") = 40/110 ∧
    weightLookup (resolveWeightMap none) ("speech rate") = 10/110 ∧
    weightLookup (resolveWeightMap none) ("language & grammar") = 20/110 ∧
    weightLookup (resolveWeightMap none) ("vocabulary richness") = 10/110 ∧
    weightLookup (resolveWeightMap none) ("clarity") = 15/110 ∧
    weightLookup (resolveWeightMap none) ("engagement") = 15/110 := by
  have hsum : (CRITERION_POINTS.map Prod.snd).sum = 110 := by
    norm_num [CRITERION_POINTS]
  have h1 : weightLookup (resolveWeightMap none) ("content & structure")
      = 40 / (CRITERION_POINTS.map Prod.snd).sum := rfl
  have h2 : weightLookup (resolveWeightMap none) ("speech rate")
      = 10 / (CRITERION_POINTS.map Prod.snd).sum := rfl
  have h3 : weightLookup (resolveWeightMap none) ("language & grammar")
      = 20 / (CRITERION_POINTS.map Prod.snd).sum := rfl
  have h4 : weightLookup (resolveWeightMap none) ("vocabulary richness")
      = 10 / (CRITERION_POINTS.map Prod.snd).sum := rfl
  have h5 : weightLookup (resolveWeightMap none) ("clarity")
      = 15 / (CRITERION_POINTS.map Prod.snd).sum := rfl
  have h6 : weightLookup (resolveWeightMap none) ("engagement")
      = 15 / (CRITERION_POINTS.map Prod.snd).sum := rfl
  rw [h1, h2, h3, h4, h5, h6, hsum]
  norm_num

/-- Claim C4: in every report, the third `per_criterion` entry is the merged
"Language & Grammar" display item whose rule, semantic and combined scores
are the unweighted averages of the standalone Grammar and Vocabulary
scorers' corresponding scores, while the fourth entry reports Vocabulary
Richness standalone with its own resolved weight and contribution. -/
theorem spec_c4 (cfg : Providers) (t : String) (rubric : Option (List RubricEntry))
    (dur : Option ℚ) :
    ((score_transcript cfg t rubric dur).per_criterion[2]?).map PerEntry.criterion
      = some ("Language & Grammar") ∧
    ((score_transcript cfg t rubric dur).per_criterion[2]?).map PerEntry.rule_score
      = some ((1 : ℚ)/2 * (score_language_grammar cfg t).rule_score
        + (1 : ℚ)/2 * (score_vocabulary cfg t).rule_score) ∧
    ((score_transcript cfg t rubric dur).per_criterion[2]?).map PerEntry.semantic_score
      = some ((1 : ℚ)/2 * (score_language_grammar cfg t).semantic_score
        + (1 : ℚ)/2 * (score_vocabulary cfg t).semantic_score) ∧
    ((score_transcript cfg t rubric dur).per_criterion[2]?).map PerEntry.combined_score
      = some ((1 : ℚ)/2 * (score_language_grammar cfg t).combined_score
        + (1 : ℚ)/2 * (score_vocabulary cfg t).combined_score) ∧
    ((score_transcript cfg t rubric dur).per_criterion[3]?).map PerEntry.criterion
      = some ("Vocabulary Richness") ∧
    ((score_transcript cfg t rubric dur).per_criterion[3]?).map PerEntry.combined_score
      = some ((score_vocabulary cfg t).combined_score) ∧
    ((score_transcript cfg t rubric dur).per_criterion[3]?).map PerEntry.weight
      = some (weightLookup (resolveWeightMap rubric) ("vocabulary richness")) ∧
    ((score_transcript cfg t rubric dur).per_criterion[3]?).map
        PerEntry.weighted_contribution
      = some ((score_vocabulary cfg t).combined_score / 100
        * (weightLookup (resolveWeightMap rubric) ("vocabulary richness") * 100)) :=
  ⟨rfl, rfl, rfl, rfl, rfl, rfl, rfl, rfl⟩

/-- Claim C5: with a positive duration, `speech_rate_score` assigns raw
points by the top-down bands on words-per-minute — `>161 → 2`,
`[141,160] → 6`, `[111,140] → 10`, `[81,110] → 6`, `≤80 → 2` — and in
particular 200 words in 100 seconds give wpm 120 and 10 raw points. -/
theorem spec_c5 (words : ℕ) (d : ℚ) (hd : 0 < d) :
    (161 < wpmOf (words : ℚ) d → speech_rate_score words (some d) = 2) ∧
    (141 ≤ wpmOf (words : ℚ) d ∧ wpmOf (words : ℚ) d ≤ 160 →
      speech_rate_score words (some d) = 6) ∧
    (111 ≤ wpmOf (words : ℚ) d ∧ wpmOf (words : ℚ) d ≤ 140 →
      speech_rate_score words (some d) = 10) ∧
    (81 ≤ wpmOf (words : ℚ) d ∧ wpmOf (words : ℚ) d ≤ 110 →
      speech_rate_score words (some d) = 6) ∧
    (wpmOf (words : ℚ) d ≤ 80 → speech_rate_score words (some d) = 2) ∧
    wpmOf 200 100 = 120 ∧ speech_rate_score 200 (some 100) = 10 := by
  have heff : ∀ w e : ℚ, 0 < e → effectiveDuration w (some e) = e := by
    intro w e he0
    simp only [effectiveDuration]
    rw [if_neg (not_le.mpr he0)]
  have he : speech_rate_score words (some d) = rateBand (wpmOf (words : ℚ) d) := by
    unfold speech_rate_score
    rw [heff _ d hd]
  have h200 : speech_rate_score 200 (some 100) = 10 := by
    have h2 : speech_rate_score 200 (some 100)
        = rateBand (wpmOf ((200 : ℕ) : ℚ) 100) := by
      unfold speech_rate_score
      rw [heff _ 100 (by norm_num)]
    rw [h2]
    have hw : wpmOf ((200 : ℕ) : ℚ) 100 = 120 := by norm_num [wpmOf]
    rw [hw]
    exact rateBand_of_111_140 120 (by norm_num) (by norm_num)
  refine ⟨?_, ?_, ?_, ?_, ?_, by norm_num [wpmOf], h200⟩
  · intro h
    rw [he, rateBand_of_gt _ h]
  · intro h
    rw [he, rateBand_of_141_160 _ h.1 h.2]
  · intro h
    rw [he, rateBand_of_111_140 _ h.1 h.2]
  · intro h
    rw [he, rateBand_of_81_110 _ h.1 h.2]
  · intro h
    rw [he, rateBand_of_le_80 _ h]

/-- Claim C5 instantiated at 200 words and 100 seconds. -/
theorem spec_c5_witness :
    (0 : ℚ) < 100 ∧
    ((161 < wpmOf ((200 : ℕ) : ℚ) 100 → speech_rate_score 200 (some 100) = 2) ∧
    (141 ≤ wpmOf ((200 : ℕ) : ℚ) 100 ∧ wpmOf ((200 : ℕ) : ℚ) 100 ≤ 160 →
      speech_rate_score 200 (some 100) = 6) ∧
    (111 ≤ wpmOf ((200 : ℕ) : ℚ) 100 ∧ wpmOf ((200 : ℕ) : ℚ) 100 ≤ 140 →
      speech_rate_score 200 (some 100) = 10) ∧
    (81 ≤ wpmOf ((200 : ℕ) : ℚ) 100 ∧ wpmOf ((200 : ℕ) : ℚ) 100 ≤ 110 →
      speech_rate_score 200 (some 100) = 6) ∧
    (wpmOf ((200 : ℕ) : ℚ) 100 ≤ 80 → speech_rate_score 200 (some 100) = 2) ∧
    wpmOf 200 100 = 120 ∧ speech_rate_score 200 (some 100) = 10) :=
  ⟨by norm_num, spec_c5 200 100 (by norm_num)⟩

/-- Claim C6: for every transcript with at least one token, the Clarity
scorer is determined by its filler rate (summed substring occurrences of the
filler set over total tokens, times 100) through the bands `≤3 → 15`,
`[4,6] → 12`, `[7,9] → 9`, `[10,12] → 6`, `>12 → 3`; in particular a rate of
exactly 3.0 gives 15 points and exactly 12.1 gives 3 points. -/
theorem spec_c6 (t : String) (h : (tokenize_words t).length ≠ 0) :
    (fillerRateOf t ≤ 3 → filler_rate_score t = 15) ∧
    (4 ≤ fillerRateOf t ∧ fillerRateOf t ≤ 6 → filler_rate_score t = 12) ∧
    (7 ≤ fillerRateOf t ∧ fillerRateOf t ≤ 9 → filler_rate_score t = 9) ∧
    (10 ≤ fillerRateOf t ∧ fillerRateOf t ≤ 12 → filler_rate_score t = 6) ∧
    (12 < fillerRateOf t → filler_rate_score t = 3) ∧
    (fillerRateOf t = 3 → filler_rate_score t = 15) ∧
    (fillerRateOf t = 121/10 → filler_rate_score t = 3) := by
  have he : filler_rate_score t = fillerBand (fillerRateOf t) := by
    unfold filler_rate_score
    rw [if_neg h]
  refine ⟨?_, ?_, ?_, ?_, ?_, ?_, ?_⟩
  · intro hr
    rw [he, fillerBand_of_le_3 _ hr]
  · intro hr
    rw [he, fillerBand_of_4_6 _ hr.1 hr.2]
  · intro hr
    rw [he, fillerBand_of_7_9 _ hr.1 hr.2]
  · intro hr
    rw [he, fillerBand_of_10_12 _ hr.1 hr.2]
  · intro hr
    rw [he, fillerBand_of_gt_12 _ hr]
  · intro hr
    rw [he, fillerBand_of_le_3 _ (le_of_eq hr)]
  · intro hr
    rw [he, fillerBand_of_gt_12 _ (by rw [hr]; norm_num)]

/-- Claim C6 instantiated at the one-token transcript "cat". -/
theorem spec_c6_witness :
    (tokenize_words ("cat")).length ≠ 0 ∧
    ((fillerRateOf ("cat") ≤ 3 → filler_rate_score ("cat") = 15) ∧
    (4 ≤ fillerRateOf ("cat") ∧ fillerRateOf ("cat") ≤ 6 →
      filler_rate_score ("cat") = 12) ∧
    (7 ≤ fillerRateOf ("cat") ∧ fillerRateOf ("cat") ≤ 9 →
      filler_rate_score ("cat") = 9) ∧
    (10 ≤ fillerRateOf ("cat") ∧ fillerRateOf ("cat") ≤ 12 →
      filler_rate_score ("cat") = 6) ∧
    (12 < fillerRateOf ("cat") → filler_rate_score ("cat") = 3) ∧
    (fillerRateOf ("cat") = 3 → filler_rate_score ("cat") = 15) ∧
    (fillerRateOf ("cat") = 121/10 → filler_rate_score ("cat") = 3)) :=
  ⟨by decide, spec_c6 ("cat") (by decide)⟩

/-- Claim C7: on a transcript with no tokens (empty or whitespace-only),
`word_count` is 0 and the ratio-based scorers return 0 rather than failing:
both the Vocabulary (TTR) scorer and the Clarity (filler-rate) scorer give 0
raw points (their zero-token guards fire before any division). -/
theorem spec_c7 (t : String) (h : tokenize_words t = []) :
    word_count t = 0 ∧ ttr_score t = 0 ∧ filler_rate_score t = 0 := by
  have hl : (tokenize_words t).length = 0 := by rw [h]; rfl
  refine ⟨hl, ?_, ?_⟩
  · unfold ttr_score
    rw [if_pos hl]
  · unfold filler_rate_score
    rw [if_pos hl]

/-- Claim C7 instantiated at the empty transcript. -/
theorem spec_c7_witness :
    tokenize_words ("") = [] ∧
    (word_count ("") = 0 ∧ ttr_score ("") = 0 ∧ filler_rate_score ("") = 0) :=
  ⟨rfl, spec_c7 ("") rfl⟩

/-- Claim C8: when the duration is omitted or non-positive, the synthesized
duration `max(1, words/120*60)` makes the words-per-minute exactly 120 for
any transcript of at least 2 tokens, so the Speech Rate scorer returns the
maximum 10 raw points; with 0 or 1 tokens it returns 2 raw points. -/
theorem spec_c8 (cfg : Providers) (t : String) (dur : Option ℚ)
    (hd : dur = none ∨ ∃ d, dur = some d ∧ d ≤ 0) :
    (2 ≤ word_count t →
      wpmOf ((word_count t : ℕ) : ℚ) (effectiveDuration ((word_count t : ℕ) : ℚ) dur)
        = 120 ∧
      (score_speech_rate cfg t dur).raw_points = 10) ∧
    (word_count t ≤ 1 → (score_speech_rate cfg t dur).raw_points = 2) := by
  have heff : ∀ w : ℚ, effectiveDuration w dur = synthDuration w := by
    intro w
    rcases hd with h | ⟨d, hdd, hle⟩
    · rw [h]
      rfl
    · rw [hdd]
      simp only [effectiveDuration]
      rw [if_pos hle]
  constructor
  · intro hw
    have hw2 : (2 : ℚ) ≤ ((word_count t : ℕ) : ℚ) := by exact_mod_cast hw
    have hsynth : synthDuration ((word_count t : ℕ) : ℚ)
        = ((word_count t : ℕ) : ℚ) / 2 := by
      unfold synthDuration
      rw [show ((word_count t : ℕ) : ℚ) / 120 * 60 = ((word_count t : ℕ) : ℚ) / 2
        from by ring]
      exact max_eq_right (by linarith)
    have hne : ((word_count t : ℕ) : ℚ) ≠ 0 := by linarith
    have hwpm : wpmOf ((word_count t : ℕ) : ℚ) (((word_count t : ℕ) : ℚ) / 2)
        = 120 := by
      unfold wpmOf
      rw [div_div]
      rw [div_div_eq_mul_div, mul_comm, mul_div_assoc, div_self hne, mul_one]
      norm_num
    refine ⟨?_, ?_⟩
    · rw [heff, hsynth]
      exact hwpm
    · show speech_rate_score (word_count t) dur = 10
      unfold speech_rate_score
      rw [heff, hsynth, hwpm]
      exact rateBand_of_111_140 120 (by norm_num) (by norm_num)
  · intro hw
    show speech_rate_score (word_count t) dur = 2
    have h01 : word_count t = 0 ∨ word_count t = 1 := by omega
    rcases h01 with h0 | h1
    · rw [h0]
      unfold speech_rate_score
      rw [heff]
      rw [show synthDuration ((0 : ℕ) : ℚ) = 1 from by unfold synthDuration; norm_num]
      rw [show wpmOf ((0 : ℕ) : ℚ) 1 = 0 from by unfold wpmOf; norm_num]
      exact rateBand_of_le_80 0 (by norm_num)
    · rw [h1]
      unfold speech_rate_score
      rw [heff]
      rw [show synthDuration ((1 : ℕ) : ℚ) = 1 from by unfold synthDuration; norm_num]
      rw [show wpmOf ((1 : ℕ) : ℚ) 1 = 60 from by unfold wpmOf; norm_num]
      exact rateBand_of_le_80 60 (by norm_num)

/-- Claim C8 instantiated at the two-token transcript "hello there" with no
duration. -/
theorem spec_c8_witness :
    ((none : Option ℚ) = none ∨ ∃ d, (none : Option ℚ) = some d ∧ d ≤ 0) ∧
    ((2 ≤ word_count ("hello there") →
      wpmOf ((word_count ("hello there") : ℕ) : ℚ)
        (effectiveDuration ((word_count ("hello there") : ℕ) : ℚ) none) = 120 ∧
      (score_speech_rate noProviders ("hello there") none).raw_points = 10) ∧
    (word_count ("hello there") ≤ 1 →
      (score_speech_rate noProviders ("hello there") none).raw_points = 2)) :=
  ⟨Or.inl rfl, spec_c8 noProviders ("hello there") none (Or.inl rfl)⟩

/-- Claim C9: on the empty transcript with all providers absent, the overall
score is strictly positive (75/11 ≈ 6.8): the grammar fallback clamps the
word count to 1, finds zero errors, so normalized quality is 1 and the raw
points are 10; the engagement fallback bottoms out at 3 raw points; their
weighted contributions (and the speech-rate one) are positive. -/
theorem spec_c9 :
    (score_transcript noProviders ("") none none).overall_score = 75/11 ∧
    0 < (score_transcript noProviders ("") none none).overall_score ∧
    gramQuality noProviders ("") = 1 ∧
    grammar_score noProviders ("") = 10 ∧
    engagement_score noProviders ("") = 3 ∧
    ((score_transcript noProviders ("") none none).per_criterion[2]?).map
      PerEntry.weighted_contribution = some (50/11) ∧
    ((score_transcript noProviders ("") none none).per_criterion[5]?).map
      PerEntry.weighted_contribution = some (15/11) := by
  have hsem0 : ∀ b, semantic_similarity_score noProviders ("") b = 0 := fun _ => rfl
  have hwc0 : word_count ("") = 0 := rfl
  -- content & structure
  have hcs : csRaw ("") = 0 := by
    unfold csRaw
    rw [show (detect_salutation ("")).score = 0 from rfl,
      show (count_must_good_keywords ("")).must = 0 from rfl,
      show (count_must_good_keywords ("")).good = 0 from rfl,
      show detect_flow ("") = false from rfl]
    norm_num [clampQ]
  have hccs : (score_content_structure noProviders ("")).combined_score = 0 := by
    show (1 : ℚ)/2 * (csRaw ("") / 40 * 100) + (1 : ℚ)/2
        * semantic_similarity_score noProviders ("")
          ("Salutation name age class school family hobbies flow closing") = 0
    rw [hcs, hsem0]
    norm_num
  -- speech rate
  have hsr : speech_rate_score (word_count ("")) none = 2 := by
    rw [hwc0]
    unfold speech_rate_score
    rw [show effectiveDuration ((0 : ℕ) : ℚ) none = synthDuration ((0 : ℕ) : ℚ)
      from rfl]
    rw [show synthDuration ((0 : ℕ) : ℚ) = 1 from by unfold synthDuration; norm_num]
    rw [show wpmOf ((0 : ℕ) : ℚ) 1 = 0 from by unfold wpmOf; norm_num]
    exact rateBand_of_le_80 0 (by norm_num)
  have hcsr : (score_speech_rate noProviders ("") none).combined_score = 10 := by
    show (1 : ℚ)/2 * (speech_rate_score (word_count ("")) none
        / criterionPoints ("Speech Rate") * 100)
      + (1 : ℚ)/2 * semantic_similarity_score noProviders ("") ("Speech rate pacing")
        = 10
    rw [hsr, hsem0, show criterionPoints ("Speech Rate") = 10 from rfl]
    norm_num
  -- grammar
  have hge : gramErrorsPer100 noProviders ("") = 0 := by
    have h : gramErrorsPer100 noProviders ("")
        = ((repeatedWordMatches ("") + (commaCount ("") - 5) : ℕ) : ℚ)
          / (((max 1 (word_count ("")) : ℕ) : ℚ) / 100) := rfl
    rw [h, show repeatedWordMatches ("") = 0 from rfl,
      show commaCount ("") = 0 from rfl, hwc0]
    norm_num
  have hq : gramQuality noProviders ("") = 1 := by
    unfold gramQuality
    rw [hge]
    norm_num
  have hg : grammar_score noProviders ("") = 10 := by
    unfold grammar_score
    rw [hq]
    norm_num
  have hclg : (score_language_grammar noProviders ("")).combined_score = 50 := by
    show (1 : ℚ)/2 * (grammar_score noProviders ("") / 10 * 100)
      + (1 : ℚ)/2 * semantic_similarity_score noProviders ("") ("Grammar correctness")
        = 50
    rw [hg, hsem0]
    norm_num
  -- vocabulary
  have htt : ttr_score ("") = 0 := by
    unfold ttr_score
    rw [if_pos (show (tokenize_words ("")).length = 0 from rfl)]
  have hcvr : (score_vocabulary noProviders ("")).combined_score = 0 := by
    show (1 : ℚ)/2 * (ttr_score ("") / 10 * 100) + (1 : ℚ)/2
      * semantic_similarity_score noProviders ("")
        ("Vocabulary richness lexical diversity TTR") = 0
    rw [htt, hsem0]
    norm_num
  -- clarity
  have hfl : filler_rate_score ("") = 0 := by
    unfold filler_rate_score
    rw [if_pos (show (tokenize_words ("")).length = 0 from rfl)]
  have hccl : (score_clarity noProviders ("")).combined_score = 0 := by
    show (1 : ℚ)/2 * (filler_rate_score ("") / criterionPoints ("Clarity") * 100)
      + (1 : ℚ)/2 * semantic_similarity_score noProviders ("")
        ("Clarity minimal fillers") = 0
    rw [hfl, hsem0]
    norm_num
  -- engagement
  have hp : engagementP noProviders ("") = 0 := by
    have h : engagementP noProviders ("")
        = if (tokenize_words ("")).isEmpty then 0
          else min 1 (((tokenize_words ("")).countP
              (fun w => POS_WORDS.any (fun pw => pw.data == w)) : ℚ)
            / ((tokenize_words ("")).length : ℚ) * 2) := rfl
    rw [h, if_pos (show (tokenize_words ("")).isEmpty = true from rfl)]
  have hen : engagement_score noProviders ("") = 3 := by
    unfold engagement_score
    rw [hp]
    norm_num
  have hcen : (score_engagement noProviders ("")).combined_score = 10 := by
    show (1 : ℚ)/2 * (engagement_score noProviders ("")
        / criterionPoints ("Engagement") * 100)
      + (1 : ℚ)/2 * semantic_similarity_score noProviders ("")
        ("Engagement enthusiasm sentiment positivity") = 10
    rw [hen, hsem0, show criterionPoints ("Engagement") = 15 from rfl]
    norm_num
  -- the six weights
  have hsum : (CRITERION_POINTS.map Prod.snd).sum = 110 := by
    norm_num [CRITERION_POINTS]
  have w1 : weightLookup (resolveWeightMap none) ("content & structure")
      = 40 / (CRITERION_POINTS.map Prod.snd).sum := rfl
  have w2 : weightLookup (resolveWeightMap none) ("speech rate")
      = 10 / (CRITERION_POINTS.map Prod.snd).sum := rfl
  have w3 : weightLookup (resolveWeightMap none) ("language & grammar")
      = 20 / (CRITERION_POINTS.map Prod.snd).sum := rfl
  have w4 : weightLookup (resolveWeightMap none) ("vocabulary richness")
      = 10 / (CRITERION_POINTS.map Prod.snd).sum := rfl
  have w5 : weightLookup (resolveWeightMap none) ("clarity")
      = 15 / (CRITERION_POINTS.map Prod.snd).sum := rfl
  have w6 : weightLookup (resolveWeightMap none) ("engagement")
      = 15 / (CRITERION_POINTS.map Prod.snd).sum := rfl
  -- the contribution list
  have hmap : (score_transcript noProviders ("") none none).per_criterion.map
      PerEntry.weighted_contribution
      = [(score_content_structure noProviders ("")).combined_score / 100
          * (weightLookup (resolveWeightMap none) ("content & structure") * 100),
         (score_speech_rate noProviders ("") none).combined_score / 100
          * (weightLookup (resolveWeightMap none) ("speech rate") * 100),
         ((1 : ℚ)/2 * (score_language_grammar noProviders ("")).combined_score
            + (1 : ℚ)/2 * (score_vocabulary noProviders ("")).combined_score) / 100
          * (weightLookup (resolveWeightMap none) ("language & grammar") * 100),
         (score_vocabulary noProviders ("")).combined_score / 100
          * (weightLookup (resolveWeightMap none) ("vocabulary richness") * 100),
         (score_clarity noProviders ("")).combined_score / 100
          * (weightLookup (resolveWeightMap none) ("clarity") * 100),
         (score_engagement noProviders ("")).combined_score / 100
          * (weightLookup (resolveWeightMap none) ("engagement") * 100)] := rfl
  have hov : (score_transcript noProviders ("") none none).overall_score
      = clampQ 0 100 (((score_transcript noProviders ("") none none).per_criterion.map
          PerEntry.weighted_contribution).sum) := rfl
  have hoverall : (score_transcript noProviders ("") none none).overall_score
      = 75/11 := by
    rw [hov, hmap, hccs, hcsr, hclg, hcvr, hccl, hcen,
      w1, w2, w3, w4, w5, w6, hsum]
    norm_num [clampQ]
  have hc2 : ((score_transcript noProviders ("") none none).per_criterion[2]?).map
      PerEntry.weighted_contribution
      = some (((1 : ℚ)/2 * (score_language_grammar noProviders ("")).combined_score
          + (1 : ℚ)/2 * (score_vocabulary noProviders ("")).combined_score) / 100
        * (weightLookup (resolveWeightMap none) ("language & grammar") * 100)) := rfl
  have hc5 : ((score_transcript noProviders ("") none none).per_criterion[5]?).map
      PerEntry.weighted_contribution
      = some ((score_engagement noProviders ("")).combined_score / 100
        * (weightLookup (resolveWeightMap none) ("engagement") * 100)) := rfl
  refine ⟨hoverall, by rw [hoverall]; norm_num, hq, hg, hen, ?_, ?_⟩
  · rw [hc2, hclg, hcvr, w3, hsum]
    norm_num
  · rw [hc5, hcen, w6, hsum]
    norm_num

/-- Claim C10: salutation detection matches phrases by raw substring
containment in the lower-cased text, not by token boundaries: the transcript
"this is a test" contains no greeting token, yet the "hi" inside "this"
makes `detect_salutation` report level "normal" with 2 points instead of
"no salulation" with 0. -/
theorem spec_c10 :
    (detect_salutation ("this is a test")).level = "normal" ∧
    (detect_salutation ("this is a test")).score = 2 ∧
    (detect_salutation ("this is a test")).level ≠ "no salulation" ∧
    containsSub ("hi").data (lowerChars ("this is a test")) = true ∧
    (tokenize_words ("this is a test")).contains ("hi").data = false :=
  ⟨rfl, rfl, by decide, rfl, rfl⟩
